import Mathlib

/-!
Verification of the gym-mtsim trading environment (`gym_mtsim/envs/mt_env.py`
and `gym_mtsim/simulator/order.py`) against its natural-language specification.

Exact rational arithmetic (`ℚ`) stands in for Python floats: every property
checked here is an algebraic identity or an order comparison, independent of
rounding error.  Python `None` becomes `Option`, raised exceptions become
`Except`.
-/

namespace GymMtsim

/-- `OrderType` from `simulator/order.py`: `Sell = 0`, `Buy = 1`. -/
inductive OrderType where
  | Sell
  | Buy
deriving DecidableEq, Repr

/-- `OrderType.sign`: `1.` for Buy, `-1.` for Sell. -/
def OrderType.sign (t : OrderType) : ℚ :=
  match t with
  | .Buy => 1
  | .Sell => -1

/-- `OrderType.opposite`. -/
def OrderType.opposite (t : OrderType) : OrderType :=
  match t with
  | .Sell => .Buy
  | .Buy => .Sell

/-- The two documented values of the `sl_tp_type` string field
(`order.py` comment: `sl_tp_type: "percent", "pip"`). -/
inductive SlTpType where
  | pip
  | percent
deriving DecidableEq, Repr

/-- The fields of `Order` (`simulator/order.py`) that the risk-trigger engine
reads or writes.  `sl`, `tp`, `sl_tp_type`, `initial_sl` default to `None` in
the source, hence `Option`.  `initial_sl` is set to `sl` at construction. -/
structure Order where
  type : OrderType
  volume : ℚ
  entry_price : ℚ
  sl : Option ℚ
  tp : Option ℚ
  sl_tp_type : Option SlTpType
  initial_sl : Option ℚ
deriving DecidableEq, Repr

/-- One OHLC bar as returned by `simulator.price_at(symbol, time)`;
only the fields the env reads (`Low`, `High`, `Close`). -/
structure Bar where
  low : ℚ
  high : ℚ
  close : ℚ
deriving DecidableEq, Repr

/-! ## `fuzzy_terms_generator` (mt_env.py lines 127-136) -/

/-- `MtEnv.fuzzy_terms_generator`: raises `ValueError` on even input,
returns `[0]` for `1`, otherwise `[i * (2/(x-1)) - 1 for i in range(x)]`. -/
def fuzzy_terms_generator (x : Nat) : Except String (List ℚ) :=
  if x % 2 = 0 then
    .error "Input must be an odd integer."
  else if x = 1 then
    .ok [0]
  else
    let step : ℚ := 2 / ((x : ℚ) - 1)
    .ok ((List.range x).map (fun i : ℕ => (i : ℚ) * step - 1))

/-! ## Volume normalization (`_get_modified_volume`, lines 657-662) and
order direction (`_apply_action` line 417). -/

/-- Broker limits from `symbols_info[symbol]` used by `_get_modified_volume`. -/
structure SymbolInfo where
  volume_min : ℚ
  volume_max : ℚ
  volume_step : ℚ
deriving DecidableEq, Repr

/-- `np.clip(v, lo, hi)` for scalars (with `lo ≤ hi`): `min (max v lo) hi`. -/
def np_clip (v lo hi : ℚ) : ℚ := min (max v lo) hi

/-- Python's builtin `round` on exact values: round half to even
(banker's rounding), which is what `round` performs on the float
`v / volume_step`. -/
def python_round (q : ℚ) : ℤ :=
  let f := ⌊q⌋
  let frac := q - f
  if frac < 1/2 then f
  else if 1/2 < frac then f + 1
  else if 2 ∣ f then f else f + 1

/-- `MtEnv._get_modified_volume`: `v = abs(volume)`;
`v = np.clip(v, volume_min, volume_max)`;
`v = round(v / volume_step) * volume_step`. -/
def get_modified_volume (si : SymbolInfo) (volume : ℚ) : ℚ :=
  let v := |volume|
  let v := np_clip v si.volume_min si.volume_max
  (python_round (v / si.volume_step) : ℚ) * si.volume_step

/-- `_apply_action` line 417: `order_type = OrderType.Buy if volume > 0. else
OrderType.Sell`, applied to the raw (un-clipped) volume. -/
def order_type_for_volume (volume : ℚ) : OrderType :=
  if 0 < volume then .Buy else .Sell

/-! ## Non-hedge capping of `symbol_max_orders` (`__init__` lines 59-60) and
the continuous-mode per-symbol action slice (`_get_action_space` lines 182-186,
`_apply_action` line 330). -/

/-- `__init__` lines 59-60: `if not original_simulator.hedge:
symbol_max_orders = 1`. -/
def effective_symbol_max_orders (hedge : Bool) (symbol_max_orders : Nat) : Nat :=
  if hedge then symbol_max_orders else 1

/-- Length of one symbol's slice of a continuous (mode 0) action:
`symbol_max_orders + 2` (`k = self.symbol_max_orders + 2`, line 330; the
mode-0 action space has shape `len(trading_symbols) * (symbol_max_orders + 2)`,
line 185). -/
def symbol_action_slice_length (hedge : Bool) (symbol_max_orders : Nat) : Nat :=
  effective_symbol_max_orders hedge symbol_max_orders + 2

/-! ## Risk-trigger engine (`order_sl_or_tp_creator` lines 442-454,
`sl_tp_conditions_creator` lines 457-469, `check_sl_tp_condition`
lines 479-524). -/

/-- The `low_or_high` string parameter of the threshold helpers. -/
inductive LowOrHigh where
  | Low
  | High
deriving DecidableEq, Repr

/-- `MtEnv.order_sl_or_tp_creator`: which of `sl`/`tp` guards the given side
of the bar.  Buy: Low → `sl`, High → `tp`; Sell: Low → `tp`, High → `sl`. -/
def order_sl_or_tp_creator (order : Order) (low_or_high : LowOrHigh) : Option ℚ :=
  match order.type, low_or_high with
  | .Buy, .Low => order.sl
  | .Buy, .High => order.tp
  | .Sell, .Low => order.tp
  | .Sell, .High => order.sl

/-- `MtEnv.sl_tp_conditions_creator`: the `(threshold, sl_or_tp)` pair.
Pip: `entry ∓ value`; percent: `entry * (1 ∓ value)` (− for Low, + for High).
`none` when the relevant `sl`/`tp` value or `sl_tp_type` is unset — the
Python callers guard those cases with `check_is_not_none`. -/
def sl_tp_conditions_creator (order : Order) (low_or_high : LowOrHigh) :
    Option (ℚ × ℚ) :=
  (order_sl_or_tp_creator order low_or_high).bind fun sl_or_tp =>
    match order.sl_tp_type, low_or_high with
    | some .pip, .Low => some (order.entry_price - sl_or_tp, sl_or_tp)
    | some .pip, .High => some (order.entry_price + sl_or_tp, sl_or_tp)
    | some .percent, .Low => some (order.entry_price * (1 - sl_or_tp), sl_or_tp)
    | some .percent, .High => some (order.entry_price * (1 + sl_or_tp), sl_or_tp)
    | none, _ => none

/-- `MtEnv.check_sl_tp_condition`: returns the close price when the order is
closed by a trigger, `none` otherwise.  Mirrors the Python control flow in
which `close_price` is a mutable variable: for a Buy order the SL (Low) block
runs first and the TP (High) block runs second, each unconditionally
overwriting `close_price` when its condition holds — so when both hold the
final `close_price` is the TP threshold.  Sell is the mirror image (SL on the
High side first, TP on the Low side second). -/
def check_sl_tp_condition (order : Order) (bar : Bar) : Option ℚ :=
  match order.type with
  | .Buy =>
    let sl_hit : Option ℚ :=
      match sl_tp_conditions_creator order .Low with
      | some (thresh, _) => if bar.low ≤ thresh then some thresh else none
      | none => none
    let tp_hit : Option ℚ :=
      match sl_tp_conditions_creator order .High with
      | some (thresh, _) => if thresh ≤ bar.high then some thresh else none
      | none => none
    match tp_hit with
    | some p => some p
    | none => sl_hit
  | .Sell =>
    let sl_hit : Option ℚ :=
      match sl_tp_conditions_creator order .High with
      | some (thresh, _) => if thresh ≤ bar.high then some thresh else none
      | none => none
    let tp_hit : Option ℚ :=
      match sl_tp_conditions_creator order .Low with
      | some (thresh, _) => if bar.low ≤ thresh then some thresh else none
      | none => none
    match tp_hit with
    | some p => some p
    | none => sl_hit

/-! ## Trailing stop (`order_trailing_sl_updater` lines 299-315). -/

/-- `MtEnv.order_trailing_sl_updater`: tightens `order.sl` with a `min`
against a distance recomputed from the current Close.
Buy pip: `min(sl, initial_sl + entry - close)`;
Buy percent: `min(sl, 1 - close*(1-sl)/entry)`;
Sell pip: `min(sl, initial_sl - entry + close)`;
Sell percent: `min(sl, close*(1+sl)/entry - 1)`.
When `sl_tp_type` is `none` the Python body falls through unchanged; when
`sl` (or, in the pip branches, `initial_sl`) is `None` the Python call would
raise a `TypeError` inside `min` — those cases are returned unchanged here
and excluded by the claims' hypotheses (numeric `sl`). -/
def order_trailing_sl_updater (order : Order) (current_close : ℚ) : Order :=
  match order.type, order.sl_tp_type, order.sl, order.initial_sl with
  | .Buy, some .pip, some s, some s0 =>
      { order with sl := some (min s (s0 + order.entry_price - current_close)) }
  | .Buy, some .percent, some s, _ =>
      { order with sl := some (min s (1 - (current_close * (1 - s)) / order.entry_price)) }
  | .Sell, some .pip, some s, some s0 =>
      { order with sl := some (min s (s0 - order.entry_price + current_close)) }
  | .Sell, some .percent, some s, _ =>
      { order with sl := some (min s ((current_close * (1 + s)) / order.entry_price - 1)) }
  | _, _, _, _ => order

/-! ## Continuous-mode action decoding (`_apply_action` lines 332-369).
`expit` maps the logits to probabilities; it is a strictly monotone bijection
onto (0,1) computed before the comparisons below, so the threshold logic is
embedded directly on the probability values. -/

/-- `_apply_action` line 341: `hold = bool(hold_probability > hold_threshold)`
(strict comparison). -/
def hold_decision (hold_probability hold_threshold : ℚ) : Bool :=
  decide (hold_probability > hold_threshold)

/-- `_apply_action` lines 366-368:
`np.where(close_orders_probability[:len(symbol_orders)] > close_threshold)[0]`
— the ascending indices `i` below both `len(symbol_orders)` and the length of
the probability vector whose probability strictly exceeds the threshold. -/
def orders_to_close_index (close_probs : List ℚ) (open_count : Nat)
    (close_threshold : ℚ) : List Nat :=
  (List.range (min open_count close_probs.length)).filter
    (fun i => decide (close_probs.getD i 0 > close_threshold))

/-! ## Reward (`_calculate_reward` lines 640-644, `_create_info` lines
647-654, `step` lines 280-286).  `_create_info` records
`simulator.equity` into each history entry; `_calculate_reward` subtracts the
last recorded entry from the current equity, before the new entry is
appended.  History entries are reduced here to the recorded equity value. -/

/-- `MtEnv._calculate_reward`: `current_equity - history[-1]['equity']`.
The env's history is never empty (reset seeds it with one entry), so the
default value of `getLastD` is never read. -/
def calculate_reward (history : List ℚ) (current_equity : ℚ) : ℚ :=
  current_equity - history.getLastD 0

/-- The reward/history fragment of `step`, iterated over the sequence of
equity values observed after each clock advance: each step computes the
reward against the last history entry, then appends the new equity
(lines 280 and 286). -/
def step_rewards (history : List ℚ) : List ℚ → List ℚ
  | [] => []
  | e :: rest => calculate_reward history e :: step_rewards (history ++ [e]) rest

/-! ## Mode-1 rolling buffer (`add_row_shift_down` lines 590-597,
`update_orders_balance_equity_margin_array` lines 599-601,
`_init_orders_balance_equity_margin_array` lines 175-177, and the mode-1
branches of `_get_observation` (line 635) and `step` (lines 285-292)). -/

/-- The 2-D numpy array `orders_balance_equity_margin_array`: a fixed column
count (`shape[1]`) and a list of rows. -/
structure BufferArray where
  cols : Nat
  rows : List (List ℚ)
deriving DecidableEq, Repr

/-- `np.zeros(flattened_balance_equity_margin_orders_shape)` (line 121). -/
def zeros_buffer (window_size cols : Nat) : BufferArray :=
  ⟨cols, List.replicate window_size (List.replicate cols 0)⟩

/-- `MtEnv.add_row_shift_down`: raises `ValueError` when the new row's length
differs from the array's column count, otherwise
`np.vstack((new_row, arr[:-1]))` — prepend the new row, drop the last row. -/
def add_row_shift_down (new_row : List ℚ) (arr : BufferArray) :
    Except String BufferArray :=
  if new_row.length ≠ arr.cols then
    .error "The dimensions of the new row do not match the array's columns."
  else
    .ok ⟨arr.cols, new_row :: arr.rows.dropLast⟩

/-- `MtEnv._init_orders_balance_equity_margin_array`: runs
`update_orders_balance_equity_margin_array` `window_size` times.  During
`reset` the simulator state does not change between iterations, so every
computed row equals the same initial pre-trade snapshot `row`. -/
def init_orders_balance_equity_margin_array (window_size : Nat)
    (row : List ℚ) (arr : BufferArray) : Except String BufferArray :=
  match window_size with
  | 0 => .ok arr
  | n + 1 => (add_row_shift_down row arr).bind
      (init_orders_balance_equity_margin_array n row)

/-- Mode-1 branch of `_get_observation` (line 635):
`np.concatenate((features, self.orders_balance_equity_margin_array), axis=1)`
— row-wise concatenation of the windowed feature matrix with the buffer. -/
def concat_columns (features : List (List ℚ)) (arr : BufferArray) :
    List (List ℚ) :=
  List.zipWith (fun f r => f ++ r) features arr.rows

/-- The mode-1 observation/buffer fragment of `step`: the observation is
assembled from the current buffer (line 285), and only afterwards is the
step's new row prepended (lines 291-292).  Returns the observation and the
updated buffer. -/
def step_observation_mode1 (features : List (List ℚ)) (new_row : List ℚ)
    (arr : BufferArray) : List (List ℚ) × Except String BufferArray :=
  let observation := concat_columns features arr
  (observation, add_row_shift_down new_row arr)

/-- The ordering asserted by the claim, for comparison: the row computed
during the step is prepended first and the observation is assembled from the
updated buffer. -/
def step_observation_mode1_claimed (features : List (List ℚ)) (new_row : List ℚ)
    (arr : BufferArray) : List (List ℚ) × Except String BufferArray :=
  match add_row_shift_down new_row arr with
  | .ok arr' => (concat_columns features arr', .ok arr')
  | .error e => (concat_columns features arr, .error e)

/-! ## Construction-time validation (`__init__` lines 53-84): the assert
prologue, the `render_mode` assert (line 74) and the
`fuzzy_terms_generator` call (line 84), in source order.  Attribute
assignments in between cannot fail and are omitted. -/

/-- The constructor inputs the validation prologue reads.  `symbols_info`
maps each known symbol to its `currency_profit`; `unit_currencies` lists the
profit currencies for which the simulator has a unit symbol (modelled from
the spec: `_get_unit_symbol_info` lives in the accounting collaborator,
absent from src — spec §6/§7 describe it as a per-currency lookup whose
`None` result means a missing unit-currency conversion path).
`time_points_count` is the length of the (given or defaulted) time-point
list. -/
structure InitParams where
  symbols_data_count : Nat
  symbols_info : List (String × String)
  unit_currencies : List String
  trading_symbols : List String
  window_size : Nat
  time_points_count : Nat
  hold_threshold : ℚ
  render_mode : Option String
  discrete_actions_count : Nat

/-- The per-symbol validation loop (`__init__` lines 62-66): each trading
symbol must be a key of `symbols_info`, and its profit currency must have a
unit symbol. -/
def validate_symbols (symbols_info : List (String × String))
    (unit_currencies : List String) : List String → Except String Unit
  | [] => .ok ()
  | s :: rest =>
    match symbols_info.lookup s with
    | none => .error "symbol not found"
    | some currency_profit =>
      if currency_profit ∈ unit_currencies then
        validate_symbols symbols_info unit_currencies rest
      else
        .error "unit symbol not found"

/-- The valid values of `render_mode`: `None` or one of
`metadata["render_modes"]` (line 74). -/
def valid_render_modes : List (Option String) :=
  [none, some "human", some "simple_figure", some "advanced_figure"]

/-- The `__init__` validation prologue as an `Except`: the asserts of lines
54-57, the symbol loop of lines 62-66, the time-point assert of line 70
(`len(time_points) > window_size`), the `render_mode` assert of line 74 and
the parity check raised by `fuzzy_terms_generator` at line 84. -/
def init_validate (p : InitParams) : Except String Unit :=
  if 0 < p.symbols_data_count then
    if 0 < p.symbols_info.length then
      if 0 < p.trading_symbols.length then
        if 0 ≤ p.hold_threshold ∧ p.hold_threshold ≤ 1 then
          match validate_symbols p.symbols_info p.unit_currencies
              p.trading_symbols with
          | .error e => .error e
          | .ok _ =>
            if p.window_size < p.time_points_count then
              if p.render_mode ∈ valid_render_modes then
                if p.discrete_actions_count % 2 = 0 then
                  .error "Input must be an odd integer."
                else
                  .ok ()
              else
                .error "render_mode invalid"
            else
              .error "not enough time points provided"
        else
          .error "'hold_threshold' must be in range [0., 1.]"
      else
        .error "no trading symbols provided"
    else
      .error "no data available"
  else
    .error "no data available"

/-- A parameter record meeting every condition listed by the claim, with
exactly `window_size` time points. -/
def c5_params : InitParams :=
  ⟨1, [("EURUSD", "USD")], ["USD"], ["EURUSD"], 10, 10, 1/2, none, 3⟩

/-! ## Per-step sequencing (`step` lines 268-296 and `_apply_action` lines
326-439), for an environment with a single trading symbol (the discrete mode
is restricted to that case; with several symbols `_apply_action` runs its
three per-symbol phases symbol by symbol and `orders_sl_update` still follows
all of them).  Only the open-order list is tracked: `simulator.close_order`
removes an order from `symbol_orders` (spec §3: a closed order is excluded
from future trigger evaluation), and `simulator.tick` advances the clock
without touching the open-order list. -/

/-- The env configuration fields `step`/`_apply_action` read. -/
structure EnvConfig where
  close_threshold : ℚ
  hedge : Bool
  symbol_max_orders : Nat
  sl : Option ℚ
  tp : Option ℚ
  sl_tp_type : Option SlTpType
  trailing_distance : Option Nat
  si : SymbolInfo
deriving DecidableEq, Repr

/-- A decoded continuous-mode action for the single symbol: close
probabilities (`expit` of the close logits), the hold flag and the raw
volume. -/
structure StepAction where
  close_probs : List ℚ
  hold : Bool
  volume : ℚ
deriving DecidableEq, Repr

/-- The simulator state `step` reads: the symbol's open orders and the OHLC
bar at `current_time`. -/
structure SimState where
  orders : List Order
  bar : Bar
deriving DecidableEq, Repr

/-- Modelled from the spec (§6): `simulator.create_order` lives in the
accounting collaborator, absent from src; per spec §3/§6 it appends a new
order whose side comes from the raw volume's sign (line 417), whose volume is
the normalized one (line 423 passes `modified_volume`), entered at the
current Close, carrying the env-level `sl`/`tp`/`sl_tp_type` with
`initial_sl = sl` (order.py line 49).  Margin rejection is not modelled. -/
def create_order (cfg : EnvConfig) (volume : ℚ) (entry_price : ℚ) : Order :=
  { type := order_type_for_volume volume
    volume := get_modified_volume cfg.si volume
    entry_price := entry_price
    sl := cfg.sl
    tp := cfg.tp
    sl_tp_type := cfg.sl_tp_type
    initial_sl := cfg.sl }

/-- Explicit closes (`_apply_action` lines 365-380): the orders selected by
`orders_to_close_index` are closed; the survivors are re-fetched. -/
def explicit_close_phase (close_probs : List ℚ) (close_threshold : ℚ)
    (orders : List Order) : List Order :=
  let to_close := orders_to_close_index close_probs orders.length close_threshold
  orders.enum.filterMap (fun p => if p.1 ∈ to_close then none else some p.2)

/-- SL/TP trigger testing (`_apply_action` lines 390-399): every surviving
order with `sl_tp_type` set is run through `check_sl_tp_condition`, which
closes it (removing it from the open list) when a condition fires. -/
def trigger_phase (bar : Bar) (orders : List Order) : List Order :=
  orders.filter
    (fun o => !(o.sl_tp_type.isSome && (check_sl_tp_condition o bar).isSome))

/-- New-order creation (`_apply_action` lines 401-434): blocked when hedging
with zero remaining capacity, performed when `hold` is false. -/
def creation_phase (cfg : EnvConfig) (hold : Bool) (volume : ℚ) (bar : Bar)
    (orders : List Order) : List Order :=
  let capacity := cfg.symbol_max_orders - orders.length
  if cfg.hedge = true ∧ capacity = 0 then orders
  else if hold = false then orders ++ [create_order cfg volume bar.close]
  else orders

/-- `orders_sl_update` (lines 318-323): when a trailing distance is
configured, every open order gets the trailing update against the current
bar's Close. -/
def trailing_phase (cfg : EnvConfig) (bar : Bar) (orders : List Order) :
    List Order :=
  if cfg.trailing_distance.isSome then
    orders.map (fun o => order_trailing_sl_updater o bar.close)
  else
    orders

/-- The open-order effect of one `step` call, transcribed in source statement
order: `_apply_action` (explicit closes, then SL/TP trigger testing, then
new-order creation — lines 326-439) runs first, then `orders_sl_update`
(line 271) applies the trailing update, and only then does the clock advance
(lines 273-278). -/
def step_orders (cfg : EnvConfig) (a : StepAction) (s : SimState) :
    List Order :=
  let to_close := orders_to_close_index a.close_probs s.orders.length
      cfg.close_threshold
  let orders1 := s.orders.enum.filterMap
      (fun p => if p.1 ∈ to_close then none else some p.2)
  let orders2 := orders1.filter
      (fun o => !(o.sl_tp_type.isSome && (check_sl_tp_condition o s.bar).isSome))
  let capacity := cfg.symbol_max_orders - orders2.length
  let orders3 :=
    if cfg.hedge = true ∧ capacity = 0 then orders2
    else if a.hold = false then orders2 ++ [create_order cfg a.volume s.bar.close]
    else orders2
  if cfg.trailing_distance.isSome then
    orders3.map (fun o => order_trailing_sl_updater o s.bar.close)
  else
    orders3

/-- The per-step ordering asserted by the claim, for comparison: explicit
closes first, then the trailing update, then trigger testing, then
creation. -/
def step_orders_claimed (cfg : EnvConfig) (a : StepAction) (s : SimState) :
    List Order :=
  let orders1 := explicit_close_phase a.close_probs cfg.close_threshold s.orders
  let orders1t := trailing_phase cfg s.bar orders1
  let orders2 := trigger_phase s.bar orders1t
  creation_phase cfg a.hold a.volume s.bar orders2

/-- A hedged two-slot configuration (`close_threshold = 1`) with a trailing
distance set and no env-level SL/TP for new orders. -/
def c2_cfg : EnvConfig := ⟨1, true, 2, none, none, none, some 1, ⟨1/100, 10, 1/100⟩⟩

/-- A hold action with one below-threshold close probability. -/
def c2_action : StepAction := ⟨[0], true, 0⟩

/-- One open Buy pip order (`entry = 100`, `sl = 5`) on a bar with
`Low = 96`, `High = 100`, `Close = 110`. -/
def c2_state : SimState :=
  ⟨[⟨.Buy, 1, 100, some 5, none, some .pip, some 5⟩], ⟨96, 100, 110⟩⟩

/-! ## Helper lemmas -/

/-- Unfolding of `step_rewards`: each reward is the difference between
consecutive equity values, anchored at the last entry of the history. -/
theorem step_rewards_eq (es : List ℚ) : ∀ (h : List ℚ) (e0 : ℚ),
    h.getLastD 0 = e0 →
    step_rewards h es = List.zipWith (fun a b => a - b) es (e0 :: es) := by
  induction es with
  | nil => intro h e0 _; rfl
  | cons e rest ih =>
    intro h e0 hlast
    simp only [step_rewards, calculate_reward, hlast]
    rw [ih (h ++ [e]) e (List.getLastD_concat 0 e h)]
    rfl


/-- Replaying `j` identical rows into a buffer that already starts with `i`
copies of that row followed by `j` filler rows yields `i + j` copies. -/
theorem init_buffer_replicate (row : List ℚ) (c : Nat) (hrow : row.length = c)
    (z : List ℚ) :
    ∀ (j i : Nat), init_orders_balance_equity_margin_array j row
        ⟨c, List.replicate i row ++ List.replicate j z⟩
      = .ok ⟨c, List.replicate (j + i) row⟩ := by
  intro j
  induction j with
  | zero =>
    intro i
    simp [init_orders_balance_equity_margin_array]
  | succ n ih =>
    intro i
    have hdrop : (List.replicate i row ++ List.replicate (n + 1) z).dropLast
        = List.replicate i row ++ List.replicate n z := by
      rw [List.replicate_succ' n z, ← List.append_assoc, List.dropLast_concat]
    have hstep : add_row_shift_down row
          ⟨c, List.replicate i row ++ List.replicate (n + 1) z⟩
        = .ok ⟨c, List.replicate (i + 1) row ++ List.replicate n z⟩ := by
      rw [add_row_shift_down, if_neg (by simp [hrow]), hdrop]
      simp [List.replicate_succ]
    rw [init_orders_balance_equity_margin_array, hstep]
    rw [Except.bind]
    rw [ih (i + 1)]
    have harith : n + (i + 1) = n + 1 + i := by omega
    rw [harith]


/-- The symbol loop succeeds iff every trading symbol is known and its
profit currency has a unit symbol. -/
theorem validate_symbols_eq_ok_iff (symbols_info : List (String × String))
    (unit_currencies : List String) :
    ∀ l : List String,
      validate_symbols symbols_info unit_currencies l = .ok ()
        ↔ ∀ s ∈ l, ∃ cp, symbols_info.lookup s = some cp
            ∧ cp ∈ unit_currencies := by
  intro l
  induction l with
  | nil => simp [validate_symbols]
  | cons s rest ih =>
    simp only [validate_symbols]
    cases hl : symbols_info.lookup s with
    | none => simp [hl]
    | some cp =>
      by_cases hu : cp ∈ unit_currencies
      · simp [hl, hu, ih]
      · simp [hl, hu]


/-! ## Claim theorems (first group) -/

/-- C4 (counterexample): with a one-row buffer holding `[1]`, features `[[0]]`
and a step row `[2]`, the observation returned by the step fragment is
`[[0, 1]]` — built from the buffer *before* the step's row is prepended —
whereas under the claim's ordering it would be `[[0, 2]]`. -/
theorem C4_counterexample :
    (step_observation_mode1 [[0]] [2] ⟨1, [[1]]⟩).1
      ≠ (step_observation_mode1_claimed [[0]] [2] ⟨1, [[1]]⟩).1 := by
  norm_num [step_observation_mode1, step_observation_mode1_claimed,
    concat_columns, add_row_shift_down]

/-- C4 (amended): the rolling buffer keeps exactly `window_size` rows (each
update preserves the row count), each update prepends the new row and drops
the oldest, and reset warm-starts the buffer with `window_size` identical
copies of the initial pre-trade row; however the observation returned by a
step concatenates the features with the buffer state from *before* that
step's update — the row computed during a step is prepended only after the
observation is assembled. -/
theorem C4_amended_rolling_buffer :
    (∀ (new_row : List ℚ) (arr arr' : BufferArray),
        1 ≤ arr.rows.length →
        add_row_shift_down new_row arr = .ok arr' →
        arr'.rows.length = arr.rows.length)
    ∧ (∀ (new_row : List ℚ) (arr arr' : BufferArray),
        add_row_shift_down new_row arr = .ok arr' →
        arr'.rows = new_row :: arr.rows.dropLast)
    ∧ (∀ (w c : Nat) (row : List ℚ), row.length = c →
        init_orders_balance_equity_margin_array w row (zeros_buffer w c)
          = .ok ⟨c, List.replicate w row⟩)
    ∧ (∀ (features : List (List ℚ)) (new_row : List ℚ) (arr : BufferArray),
        (step_observation_mode1 features new_row arr).1
            = concat_columns features arr
        ∧ (step_observation_mode1 features new_row arr).2
            = add_row_shift_down new_row arr) := by
  refine ⟨?_, ?_, ?_, ?_⟩
  · intro new_row arr arr' hlen hok
    rw [add_row_shift_down] at hok
    by_cases hc : new_row.length ≠ arr.cols
    · rw [if_pos hc] at hok
      exact absurd hok (by simp)
    · rw [if_neg hc] at hok
      injection hok with h'
      subst h'
      simp [List.length_dropLast]
      omega
  · intro new_row arr arr' hok
    rw [add_row_shift_down] at hok
    by_cases hc : new_row.length ≠ arr.cols
    · rw [if_pos hc] at hok
      exact absurd hok (by simp)
    · rw [if_neg hc] at hok
      injection hok with h'
      subst h'
      rfl
  · intro w c row hrow
    have h0 : List.replicate 0 row ++ List.replicate w (List.replicate c 0)
        = List.replicate w (List.replicate c 0) := by simp
    have hmain := init_buffer_replicate row c hrow (List.replicate c 0) w 0
    rw [h0, Nat.add_zero] at hmain
    rw [zeros_buffer]
    exact hmain
  · intro features new_row arr
    exact ⟨rfl, rfl⟩

/-- Witness for C4 at concrete inputs: prepending `[7]` to a two-row buffer
keeps two rows, and warm-starting a 2×1 zero buffer with the row `[5]`
yields two copies of `[5]`. -/
theorem C4_witness :
    ((⟨1, [[7], [1]]⟩ : BufferArray).rows.length
        = (⟨1, [[1], [2]]⟩ : BufferArray).rows.length)
    ∧ init_orders_balance_equity_margin_array 2 [5] (zeros_buffer 2 1)
        = .ok ⟨1, List.replicate 2 [5]⟩ :=
  ⟨C4_amended_rolling_buffer.1 [7] ⟨1, [[1], [2]]⟩ ⟨1, [[7], [1]]⟩
      (by norm_num) rfl,
   C4_amended_rolling_buffer.2.2.1 2 1 [5] rfl⟩

/-- C6: in continuous mode, `hold` is true iff the hold probability strictly
exceeds `hold_threshold` (equality yields `hold = false`), and the order at
position `i` is selected for closing iff `i` is a valid index among the
symbol's open orders and its close probability strictly exceeds
`close_threshold` (equality never closes). -/
theorem C6_strict_threshold_decode :
    (∀ p t : ℚ, hold_decision p t = true ↔ p > t)
    ∧ (∀ t : ℚ, hold_decision t t = false)
    ∧ (∀ (probs : List ℚ) (count : Nat) (t : ℚ) (i : Nat),
        count ≤ probs.length →
        (i ∈ orders_to_close_index probs count t
          ↔ i < count ∧ probs.getD i 0 > t))
    ∧ (∀ (probs : List ℚ) (count : Nat) (t : ℚ) (i : Nat),
        probs.getD i 0 = t → i ∉ orders_to_close_index probs count t) := by
  refine ⟨?_, ?_, ?_, ?_⟩
  · intro p t
    simp [hold_decision]
  · intro t
    simp [hold_decision]
  · intro probs count t i h
    simp [orders_to_close_index, List.mem_filter, List.mem_range,
      min_eq_left h]
  · intro probs count t i heq hmem
    rw [orders_to_close_index] at hmem
    have := (List.mem_filter.mp hmem).2
    rw [heq] at this
    simp at this

/-- Witness for C6: probabilities `[3/4, 1/2]` against threshold `1/2` over
two open orders — index 0 (probability above threshold) is selected, index 1
(probability exactly at threshold) is not. -/
theorem C6_witness :
    ((0 ∈ orders_to_close_index [3/4, 1/2] 2 (1/2))
      ↔ (0 < 2 ∧ ([3/4, 1/2] : List ℚ).getD 0 0 > 1/2))
    ∧ (1 ∉ orders_to_close_index [3/4, 1/2] 2 (1/2)) :=
  ⟨C6_strict_threshold_decode.2.2.1 [3/4, 1/2] 2 (1/2) 0 (by norm_num),
   C6_strict_threshold_decode.2.2.2 [3/4, 1/2] 2 (1/2) 1 rfl⟩

/-- Evaluation of the two step orderings on the C2 scenario: under the
source ordering the order survives (its stop does not trigger at `sl = 5`:
`96 > 95`) and is then tightened to `sl = −5`; under the claim's ordering the
tightening happens first, the stop threshold becomes `105 ≥ 96` and the order
is closed by the trigger. -/
theorem c2_scenario_eval :
    step_orders c2_cfg c2_action c2_state
        = [⟨.Buy, 1, 100, some (-5), none, some .pip, some 5⟩]
    ∧ step_orders_claimed c2_cfg c2_action c2_state = [] := by
  have hmin : min (5 : ℚ) (5 + 100 - 110) = 5 + 100 - 110 :=
    min_eq_right (by norm_num)
  have hplus : (5 : ℚ) + 100 - 110 = -5 := by norm_num
  have hidx : orders_to_close_index [0] 1 1 = [] := by
    have hlt : ¬((0 : ℚ) > 1) := by norm_num
    simp [orders_to_close_index, hlt]
  have hcheck : check_sl_tp_condition
      ⟨.Buy, 1, 100, some 5, none, some .pip, some 5⟩ ⟨96, 100, 110⟩
      = none := by
    have h96 : ¬((96 : ℚ) ≤ 100 - 5) := by norm_num
    simp [check_sl_tp_condition, sl_tp_conditions_creator,
      order_sl_or_tp_creator, h96]
  have hcheck2 : check_sl_tp_condition
      ⟨.Buy, 1, 100, some (-5), none, some .pip, some 5⟩ ⟨96, 100, 110⟩
      = some 105 := by
    have h96 : ((96 : ℚ) ≤ 100 - -5) := by norm_num
    have h96a : ((96 : ℚ) ≤ 105) := by norm_num
    have h105 : (100 : ℚ) - -5 = 105 := by norm_num
    simp [check_sl_tp_condition, sl_tp_conditions_creator,
      order_sl_or_tp_creator, h96, h96a, h105]
  have htrail : order_trailing_sl_updater
      ⟨.Buy, 1, 100, some 5, none, some .pip, some 5⟩ 110
      = ⟨.Buy, 1, 100, some (-5), none, some .pip, some 5⟩ := by
    simp [order_trailing_sl_updater, hmin, hplus]
  constructor
  · simp only [step_orders, c2_cfg, c2_action, c2_state]
    simp [hidx, hcheck, htrail, List.enum, List.filterMap_cons]
  · simp only [step_orders_claimed, explicit_close_phase, trailing_phase,
      trigger_phase, creation_phase, c2_cfg, c2_action, c2_state]
    simp [hidx, hcheck2, htrail, List.enum, List.filterMap_cons]

/-- C2 (counterexample): on the C2 scenario the source's per-step ordering
and the claim's ordering (trailing update before trigger testing) produce
different results — the source keeps the order open (one order) while the
claim's ordering closes it (no orders). -/
theorem C2_counterexample :
    (step_orders c2_cfg c2_action c2_state).length = 1
    ∧ (step_orders_claimed c2_cfg c2_action c2_state).length = 0
    ∧ step_orders c2_cfg c2_action c2_state
        ≠ step_orders_claimed c2_cfg c2_action c2_state := by
  refine ⟨?_, ?_, ?_⟩
  · rw [c2_scenario_eval.1]
    rfl
  · rw [c2_scenario_eval.2]
    rfl
  · rw [c2_scenario_eval.1, c2_scenario_eval.2]
    simp

/-- C2 (amended): within every `step` call the per-order operations occur in
the order: explicit close actions, then SL/TP trigger testing against the
step's bar, then new-order creation, and then — not before trigger testing —
the trailing-stop update, all before the clock advance; consequently an
order whose pre-update stop does not trigger survives the step even when its
post-update stop would have triggered. -/
theorem C2_amended_phase_order :
    (∀ (cfg : EnvConfig) (a : StepAction) (s : SimState),
      step_orders cfg a s
        = trailing_phase cfg s.bar
            (creation_phase cfg a.hold a.volume s.bar
              (trigger_phase s.bar
                (explicit_close_phase a.close_probs cfg.close_threshold
                  s.orders))))
    ∧ step_orders c2_cfg c2_action c2_state
        = [⟨.Buy, 1, 100, some (-5), none, some .pip, some 5⟩] := by
  constructor
  · intro cfg a s
    rfl
  · exact c2_scenario_eval.1

/-- C5 (counterexample): a parameter record satisfying every condition of the
claim's list — non-empty data, non-empty symbol set, `hold_threshold`
in `[0,1]`, known symbol with a unit-currency path, odd
`discrete_actions_count`, and exactly as many time points as `window_size`
(not fewer) — still fails construction: line 70 requires strictly more time
points than `window_size`. -/
theorem C5_counterexample :
    c5_params.time_points_count = c5_params.window_size
    ∧ init_validate c5_params = .error "not enough time points provided" := by
  constructor
  · rfl
  · norm_num [init_validate, validate_symbols, c5_params, valid_render_modes,
      List.lookup]

/-- C5 (amended): construction succeeds exactly when the market data and
symbol sets are non-empty, `hold_threshold` lies in `[0,1]`, every trading
symbol is known and has a unit-currency path, the number of time points is
*strictly greater* than `window_size` (equality fails), `render_mode` is
valid, and `discrete_actions_count` is odd. -/
theorem C5_amended_construction_validation :
    ∀ p : InitParams,
      init_validate p = .ok ()
        ↔ 0 < p.symbols_data_count
          ∧ 0 < p.symbols_info.length
          ∧ 0 < p.trading_symbols.length
          ∧ (0 ≤ p.hold_threshold ∧ p.hold_threshold ≤ 1)
          ∧ (∀ s ∈ p.trading_symbols, ∃ cp,
              p.symbols_info.lookup s = some cp ∧ cp ∈ p.unit_currencies)
          ∧ p.window_size < p.time_points_count
          ∧ p.render_mode ∈ valid_render_modes
          ∧ p.discrete_actions_count % 2 = 1 := by
  intro p
  unfold init_validate
  by_cases h1 : 0 < p.symbols_data_count
  · by_cases h2 : 0 < p.symbols_info.length
    · by_cases h3 : 0 < p.trading_symbols.length
      · by_cases h4 : 0 ≤ p.hold_threshold ∧ p.hold_threshold ≤ 1
        · rw [if_pos h1, if_pos h2, if_pos h3, if_pos h4]
          cases hv : validate_symbols p.symbols_info p.unit_currencies
              p.trading_symbols with
          | error e =>
            have hnot : ¬(∀ s ∈ p.trading_symbols, ∃ cp,
                p.symbols_info.lookup s = some cp
                  ∧ cp ∈ p.unit_currencies) := by
              intro hall
              have hok := (validate_symbols_eq_ok_iff _ _ p.trading_symbols).mpr hall
              rw [hok] at hv
              exact Except.noConfusion hv
            simp [hnot]
          | ok u =>
            have hall := (validate_symbols_eq_ok_iff _ _ p.trading_symbols).mp
              (by cases u; exact hv)
            by_cases h5 : p.window_size < p.time_points_count
            · by_cases h6 : p.render_mode ∈ valid_render_modes
              · by_cases h7 : p.discrete_actions_count % 2 = 0
                · have h8 : ¬(p.discrete_actions_count % 2 = 1) := by omega
                  simp [h5, h6, h7, h8]
                · have h8 : p.discrete_actions_count % 2 = 1 := by omega
                  simp [h1, h2, h3, h4.1, h4.2, h5, h6, h7, h8]
                  exact hall
              · simp [h5, h6]
            · simp [h5]
        · rw [if_pos h1, if_pos h2, if_pos h3, if_neg h4]
          simp [h4]
      · rw [if_pos h1, if_pos h2, if_neg h3]
        simp [h3]
    · rw [if_pos h1, if_neg h2]
      simp [h2]
  · rw [if_neg h1]
    simp [h1]

/-- C9: the reward of each step equals the equity after the step's clock
advance minus the equity recorded in the most recent history entry, with no
clipping or scaling; the equity trajectory `[1000, 1005, 998]` yields rewards
`[5, -7]`. -/
theorem C9_reward_is_equity_delta :
    (∀ (e0 : ℚ) (es : List ℚ),
      step_rewards [e0] es = List.zipWith (fun a b => a - b) es (e0 :: es))
    ∧ step_rewards [1000] [1005, 998] = [5, -7] := by
  constructor
  · intro e0 es
    exact step_rewards_eq es [e0] e0 rfl
  · norm_num [step_rewards, calculate_reward]

/-- C8: `fuzzy_terms_generator` returns `[0]` for 1, `[-1, 0, 1]` for 3,
`[-1, -0.5, 0, 0.5, 1]` for 5; errors on every even input; and for every odd
`n > 1` returns the `n` values `i * (2/(n-1)) - 1` with an exact `0` at the
midpoint index `(n-1)/2`. -/
theorem C8_fuzzy_terms_table :
    fuzzy_terms_generator 1 = .ok [0]
    ∧ fuzzy_terms_generator 3 = .ok [-1, 0, 1]
    ∧ fuzzy_terms_generator 5 = .ok [-1, -(1/2), 0, 1/2, 1]
    ∧ (∀ x : Nat, x % 2 = 0 → ∃ e, fuzzy_terms_generator x = .error e)
    ∧ (∀ n : Nat, n % 2 = 1 → 1 < n →
        ∃ l, fuzzy_terms_generator n = .ok l ∧ l.length = n
          ∧ (∀ i, i < n → l[i]? = some ((i : ℚ) * (2 / ((n : ℚ) - 1)) - 1))
          ∧ l[(n - 1) / 2]? = some 0) := by
  have hr3 : List.range 3 = [0, 1, 2] := rfl
  have hr5 : List.range 5 = [0, 1, 2, 3, 4] := rfl
  refine ⟨rfl, ?_, ?_, ?_, ?_⟩
  · simp only [fuzzy_terms_generator, hr3]
    norm_num
  · simp only [fuzzy_terms_generator, hr5]
    norm_num
  · intro x hx
    exact ⟨"Input must be an odd integer.", by simp [fuzzy_terms_generator, hx]⟩
  · intro n hodd hn
    have hne : n % 2 ≠ 0 := by omega
    have hne1 : n ≠ 1 := by omega
    refine ⟨(List.range n).map (fun i : ℕ => (i : ℚ) * (2 / ((n : ℚ) - 1)) - 1),
      by simp [fuzzy_terms_generator, hne, hne1], by simp, ?_, ?_⟩
    · intro i hi
      rw [List.getElem?_map, List.getElem?_range hi]
      rfl
    · have hmid : (n - 1) / 2 < n := by omega
      rw [List.getElem?_map, List.getElem?_range hmid]
      rw [show ∀ (g : ℕ → ℚ) (m : ℕ), Option.map g (some m) = some (g m) from fun g m => rfl]
      have h2 : (2 : ℕ) ∣ (n - 1) := by omega
      have hcast : (((n - 1) / 2 : ℕ) : ℚ) = ((n : ℚ) - 1) / 2 := by
        rw [Nat.cast_div h2 (by norm_num)]
        congr 1
        push_cast [Nat.one_le_iff_ne_zero.mpr (by omega : n ≠ 0)]
        ring
      have hnz : ((n : ℚ) - 1) ≠ 0 := by
        have h1 : (1 : ℚ) < (n : ℚ) := by exact_mod_cast hn
        linarith
      rw [hcast]
      congr 1
      field_simp

/-- Witness for C8: input 4 (even) fails; input 7 (odd, above 1) produces
seven evenly spaced terms with an exact 0 at index 3. -/
theorem C8_witness :
    (∃ e, fuzzy_terms_generator 4 = .error e)
    ∧ (∃ l, fuzzy_terms_generator 7 = .ok l ∧ l.length = 7
        ∧ (∀ i : ℕ, i < 7 →
            l[i]? = some ((i : ℚ) * (2 / (((7 : ℕ) : ℚ) - 1)) - 1))
        ∧ l[(7 - 1) / 2]? = some 0) :=
  ⟨C8_fuzzy_terms_table.2.2.2.1 4 rfl,
   C8_fuzzy_terms_table.2.2.2.2 7 rfl (by norm_num)⟩

/-- C7: the modified volume equals
`round(clip(|v|, volume_min, volume_max) / volume_step) * volume_step`;
raw `0.0034` with limits `(0.01, 10, 0.01)` yields `0.01`; the order side
is Buy iff the un-clipped raw volume is strictly positive, so raw `0`
yields Sell. -/
theorem C7_volume_normalization :
    (∀ si v, get_modified_volume si v
        = (python_round (np_clip |v| si.volume_min si.volume_max / si.volume_step) : ℚ)
            * si.volume_step)
    ∧ get_modified_volume ⟨1/100, 10, 1/100⟩ (34/10000) = 1/100
    ∧ (∀ v : ℚ, order_type_for_volume v = OrderType.Buy ↔ 0 < v)
    ∧ order_type_for_volume 0 = OrderType.Sell := by
  refine ⟨fun si v => rfl, ?_, ?_, ?_⟩
  · have habs : |(34/10000 : ℚ)| = 34/10000 := by
      rw [abs_of_pos]
      norm_num
    have hclip : np_clip (34/10000 : ℚ) (1/100) 10 = 1/100 := by
      unfold np_clip
      rw [max_eq_right (by norm_num), min_eq_left (by norm_num)]
    have hround : python_round ((1/100 : ℚ) / (1/100)) = 1 := by
      have h1 : ((1/100 : ℚ) / (1/100)) = 1 := by norm_num
      rw [h1]
      unfold python_round
      norm_num
    have hdef : get_modified_volume ⟨1/100, 10, 1/100⟩ (34/10000)
        = (python_round (np_clip |(34/10000 : ℚ)| (1/100) 10 / (1/100)) : ℚ) * (1/100) := rfl
    rw [hdef, habs, hclip, hround]
    norm_num
  · intro v
    unfold order_type_for_volume
    split
    · simp_all
    · simp_all
  · unfold order_type_for_volume
    norm_num

/-- C10: when the simulator is non-hedged, `symbol_max_orders` is forced to 1
regardless of the constructor argument, so each symbol's continuous action
slice has length 3. -/
theorem C10_non_hedge_caps_max_orders :
    ∀ symbol_max_orders : Nat,
      effective_symbol_max_orders false symbol_max_orders = 1
      ∧ symbol_action_slice_length false symbol_max_orders = 3 := by
  intro smo
  exact ⟨rfl, rfl⟩

/-- C1 (counterexample): a Buy pip order with `entry = 100`, `sl = 5`,
`tp = 5` on a bar with `Low = 94` and `High = 106` satisfies both the SL
condition (`94 ≤ 95`) and the TP condition (`106 ≥ 105`), yet
`check_sl_tp_condition` closes it at the TP threshold `105`, not at the SL
threshold `95` as the claim states. -/
theorem C1_counterexample :
    check_sl_tp_condition
        ⟨.Buy, 1, 100, some 5, some 5, some .pip, some 5⟩ ⟨94, 106, 100⟩
      = some 105
    ∧ (105 : ℚ) ≠ 95 := by
  constructor
  · norm_num [check_sl_tp_condition, sl_tp_conditions_creator, order_sl_or_tp_creator]
  · norm_num

/-- C1 (amended): SL is evaluated before TP, but a later satisfied TP
condition overwrites the close price.  For every order with `sl_tp_type` set
— Buy or Sell, pip or percent, with both thresholds set or only one — the
order closes at the TP threshold whenever the TP condition holds, at the SL
threshold when only the SL condition holds, and stays open otherwise; sides
whose `sl`/`tp` is unset are skipped, so with both unset no trigger fires
(and the spec's example — Buy pip, `entry = 100`, `sl = 5`, bar `Low = 94`,
TP not hit — closes at `95`, not at `94`).  Thresholds: Buy pip
`entry ∓ sl/tp`, Buy percent `entry·(1 ∓ sl/tp)`; Sell mirrors with the SL
condition on the High side and the TP condition on the Low side. -/
theorem C1_amended_first_hit_at_threshold :
    (∀ e s t low high close vol s0,
      check_sl_tp_condition ⟨.Buy, vol, e, some s, some t, some .pip, s0⟩
          ⟨low, high, close⟩
        = if e + t ≤ high then some (e + t)
          else if low ≤ e - s then some (e - s) else none)
    ∧ (∀ e s low high close vol s0,
      check_sl_tp_condition ⟨.Buy, vol, e, some s, none, some .pip, s0⟩
          ⟨low, high, close⟩
        = if low ≤ e - s then some (e - s) else none)
    ∧ (∀ e t low high close vol s0,
      check_sl_tp_condition ⟨.Buy, vol, e, none, some t, some .pip, s0⟩
          ⟨low, high, close⟩
        = if e + t ≤ high then some (e + t) else none)
    ∧ (∀ e s t low high close vol s0,
      check_sl_tp_condition ⟨.Buy, vol, e, some s, some t, some .percent, s0⟩
          ⟨low, high, close⟩
        = if e * (1 + t) ≤ high then some (e * (1 + t))
          else if low ≤ e * (1 - s) then some (e * (1 - s)) else none)
    ∧ (∀ e s low high close vol s0,
      check_sl_tp_condition ⟨.Buy, vol, e, some s, none, some .percent, s0⟩
          ⟨low, high, close⟩
        = if low ≤ e * (1 - s) then some (e * (1 - s)) else none)
    ∧ (∀ e t low high close vol s0,
      check_sl_tp_condition ⟨.Buy, vol, e, none, some t, some .percent, s0⟩
          ⟨low, high, close⟩
        = if e * (1 + t) ≤ high then some (e * (1 + t)) else none)
    ∧ (∀ e s t low high close vol s0,
      check_sl_tp_condition ⟨.Sell, vol, e, some s, some t, some .pip, s0⟩
          ⟨low, high, close⟩
        = if low ≤ e - t then some (e - t)
          else if e + s ≤ high then some (e + s) else none)
    ∧ (∀ e s low high close vol s0,
      check_sl_tp_condition ⟨.Sell, vol, e, some s, none, some .pip, s0⟩
          ⟨low, high, close⟩
        = if e + s ≤ high then some (e + s) else none)
    ∧ (∀ e t low high close vol s0,
      check_sl_tp_condition ⟨.Sell, vol, e, none, some t, some .pip, s0⟩
          ⟨low, high, close⟩
        = if low ≤ e - t then some (e - t) else none)
    ∧ (∀ e s t low high close vol s0,
      check_sl_tp_condition ⟨.Sell, vol, e, some s, some t, some .percent, s0⟩
          ⟨low, high, close⟩
        = if low ≤ e * (1 - t) then some (e * (1 - t))
          else if e * (1 + s) ≤ high then some (e * (1 + s)) else none)
    ∧ (∀ e s low high close vol s0,
      check_sl_tp_condition ⟨.Sell, vol, e, some s, none, some .percent, s0⟩
          ⟨low, high, close⟩
        = if e * (1 + s) ≤ high then some (e * (1 + s)) else none)
    ∧ (∀ e t low high close vol s0,
      check_sl_tp_condition ⟨.Sell, vol, e, none, some t, some .percent, s0⟩
          ⟨low, high, close⟩
        = if low ≤ e * (1 - t) then some (e * (1 - t)) else none)
    ∧ (∀ (ty : OrderType) (stype : SlTpType) (e low high close vol : ℚ)
        (s0 : Option ℚ),
      check_sl_tp_condition ⟨ty, vol, e, none, none, some stype, s0⟩
          ⟨low, high, close⟩
        = none)
    ∧ check_sl_tp_condition ⟨.Buy, 1, 100, some 5, none, some .pip, some 5⟩
          ⟨94, 106, 100⟩
        = some 95 := by
  refine ⟨?_, ?_, ?_, ?_, ?_, ?_, ?_, ?_, ?_, ?_, ?_, ?_, ?_, ?_⟩
  · intro e s t low high close vol s0
    by_cases htp : e + t ≤ high
    · simp [check_sl_tp_condition, sl_tp_conditions_creator,
        order_sl_or_tp_creator, htp]
    · by_cases hsl : low ≤ e - s
      · simp [check_sl_tp_condition, sl_tp_conditions_creator,
          order_sl_or_tp_creator, htp, hsl]
      · simp [check_sl_tp_condition, sl_tp_conditions_creator,
          order_sl_or_tp_creator, htp, hsl]
  · intro e s low high close vol s0
    by_cases hsl : low ≤ e - s
    · simp [check_sl_tp_condition, sl_tp_conditions_creator,
        order_sl_or_tp_creator, hsl]
    · simp [check_sl_tp_condition, sl_tp_conditions_creator,
        order_sl_or_tp_creator, hsl]
  · intro e t low high close vol s0
    by_cases htp : e + t ≤ high
    · simp [check_sl_tp_condition, sl_tp_conditions_creator,
        order_sl_or_tp_creator, htp]
    · simp [check_sl_tp_condition, sl_tp_conditions_creator,
        order_sl_or_tp_creator, htp]
  · intro e s t low high close vol s0
    by_cases htp : e * (1 + t) ≤ high
    · simp [check_sl_tp_condition, sl_tp_conditions_creator,
        order_sl_or_tp_creator, htp]
    · by_cases hsl : low ≤ e * (1 - s)
      · simp [check_sl_tp_condition, sl_tp_conditions_creator,
          order_sl_or_tp_creator, htp, hsl]
      · simp [check_sl_tp_condition, sl_tp_conditions_creator,
          order_sl_or_tp_creator, htp, hsl]
  · intro e s low high close vol s0
    by_cases hsl : low ≤ e * (1 - s)
    · simp [check_sl_tp_condition, sl_tp_conditions_creator,
        order_sl_or_tp_creator, hsl]
    · simp [check_sl_tp_condition, sl_tp_conditions_creator,
        order_sl_or_tp_creator, hsl]
  · intro e t low high close vol s0
    by_cases htp : e * (1 + t) ≤ high
    · simp [check_sl_tp_condition, sl_tp_conditions_creator,
        order_sl_or_tp_creator, htp]
    · simp [check_sl_tp_condition, sl_tp_conditions_creator,
        order_sl_or_tp_creator, htp]
  · intro e s t low high close vol s0
    by_cases htp : low ≤ e - t
    · simp [check_sl_tp_condition, sl_tp_conditions_creator,
        order_sl_or_tp_creator, htp]
    · by_cases hsl : e + s ≤ high
      · simp [check_sl_tp_condition, sl_tp_conditions_creator,
          order_sl_or_tp_creator, htp, hsl]
      · simp [check_sl_tp_condition, sl_tp_conditions_creator,
          order_sl_or_tp_creator, htp, hsl]
  · intro e s low high close vol s0
    by_cases hsl : e + s ≤ high
    · simp [check_sl_tp_condition, sl_tp_conditions_creator,
        order_sl_or_tp_creator, hsl]
    · simp [check_sl_tp_condition, sl_tp_conditions_creator,
        order_sl_or_tp_creator, hsl]
  · intro e t low high close vol s0
    by_cases htp : low ≤ e - t
    · simp [check_sl_tp_condition, sl_tp_conditions_creator,
        order_sl_or_tp_creator, htp]
    · simp [check_sl_tp_condition, sl_tp_conditions_creator,
        order_sl_or_tp_creator, htp]
  · intro e s t low high close vol s0
    by_cases htp : low ≤ e * (1 - t)
    · simp [check_sl_tp_condition, sl_tp_conditions_creator,
        order_sl_or_tp_creator, htp]
    · by_cases hsl : e * (1 + s) ≤ high
      · simp [check_sl_tp_condition, sl_tp_conditions_creator,
          order_sl_or_tp_creator, htp, hsl]
      · simp [check_sl_tp_condition, sl_tp_conditions_creator,
          order_sl_or_tp_creator, htp, hsl]
  · intro e s low high close vol s0
    by_cases hsl : e * (1 + s) ≤ high
    · simp [check_sl_tp_condition, sl_tp_conditions_creator,
        order_sl_or_tp_creator, hsl]
    · simp [check_sl_tp_condition, sl_tp_conditions_creator,
        order_sl_or_tp_creator, hsl]
  · intro e t low high close vol s0
    by_cases htp : low ≤ e * (1 - t)
    · simp [check_sl_tp_condition, sl_tp_conditions_creator,
        order_sl_or_tp_creator, htp]
    · simp [check_sl_tp_condition, sl_tp_conditions_creator,
        order_sl_or_tp_creator, htp]
  · intro ty stype e low high close vol s0
    cases ty <;> simp [check_sl_tp_condition, sl_tp_conditions_creator,
      order_sl_or_tp_creator]
  · norm_num [check_sl_tp_condition, sl_tp_conditions_creator,
      order_sl_or_tp_creator]

/-- One trailing invocation can only lower a numeric `sl`
(each branch takes a `min` with the previous value). -/
theorem trailing_sl_step_le (order : Order) (c s : ℚ) (hs : order.sl = some s) :
    ∃ s', (order_trailing_sl_updater order c).sl = some s' ∧ s' ≤ s := by
  obtain ⟨ty, vol, e, sl, tp, stt, isl⟩ := order
  simp only [Order.sl] at hs
  subst hs
  cases ty
  · rcases stt with _ | st
    · exact ⟨s, rfl, le_refl s⟩
    · cases st
      · rcases isl with _ | s0
        · exact ⟨s, rfl, le_refl s⟩
        · exact ⟨_, rfl, min_le_left _ _⟩
      · exact ⟨_, rfl, min_le_left _ _⟩
  · rcases stt with _ | st
    · exact ⟨s, rfl, le_refl s⟩
    · cases st
      · rcases isl with _ | s0
        · exact ⟨s, rfl, le_refl s⟩
        · exact ⟨_, rfl, min_le_left _ _⟩
      · exact ⟨_, rfl, min_le_left _ _⟩

/-- C3: every invocation of `order_trailing_sl_updater` on an order with a
numeric `sl` leaves `sl` less than or equal to its previous value, and hence
`sl` is non-increasing across any sequence of per-step trailing updates —
never reset above its current value. -/
theorem C3_trailing_sl_non_increasing :
    (∀ (order : Order) (c s : ℚ), order.sl = some s →
      ∃ s', (order_trailing_sl_updater order c).sl = some s' ∧ s' ≤ s)
    ∧ (∀ (order : Order) (closes : List ℚ) (s : ℚ), order.sl = some s →
      ∃ s', (closes.foldl order_trailing_sl_updater order).sl = some s' ∧ s' ≤ s) := by
  constructor
  · exact trailing_sl_step_le
  · intro order closes
    induction closes generalizing order with
    | nil => exact fun s hs => ⟨s, hs, le_refl s⟩
    | cons c rest ih =>
      intro s hs
      obtain ⟨s1, hs1, hle1⟩ := trailing_sl_step_le order c s hs
      obtain ⟨s', hs', hle'⟩ := ih (order_trailing_sl_updater order c) s1 hs1
      exact ⟨s', hs', le_trans hle' hle1⟩

/-- Witness for C3 at a concrete Buy pip order (`entry = 100`, `sl = 5`,
`initial_sl = 5`) and closes `110` then `105`: the stop is tightened to `−5`
and the later pull-back to `105` does not loosen it. -/
theorem C3_witness :
    (∃ s', (order_trailing_sl_updater
        ⟨.Buy, 1, 100, some 5, none, some .pip, some 5⟩ 110).sl = some s' ∧ s' ≤ 5)
    ∧ (∃ s', (([110, 105] : List ℚ).foldl order_trailing_sl_updater
        ⟨.Buy, 1, 100, some 5, none, some .pip, some 5⟩).sl = some s' ∧ s' ≤ 5) :=
  ⟨C3_trailing_sl_non_increasing.1 _ 110 5 rfl,
   C3_trailing_sl_non_increasing.2 _ [110, 105] 5 rfl⟩

end GymMtsim
